import Mathlib

/-!
Verification of the v1 frame codec of the tunnel-protocol repository.

The Go package `v1` defines a length-prefixed binary frame format.  This file
gives a shallow embedding of that package: bytes are `Nat` values below 256,
byte streams are `List Nat`, the `io.Writer` sink is modelled as the list of
bytes written (the sink itself never fails, matching `bytes.Buffer` in the
repository's tests), and the `io.Reader` source is modelled as a list of the
bytes still available, where reading past the end yields the source's own
end-of-input signal (`DecodeError.eof`, standing for `io.EOF` /
`io.ErrUnexpectedEOF`).  Go's `uint32(...)` conversion truncates, so the
length computation in `Encode` carries an explicit `% 2 ^ 32`.
-/

namespace V1

/-- Supported protocol version (constants.go). -/
def Version : Nat := 1

/-- First magic-marker byte, the character R (constants.go). -/
def Magic0 : Nat := 0x52

/-- Second magic-marker byte, the character T (constants.go). -/
def Magic1 : Nat := 0x54

/-- Frame type Auth (constants.go). -/
def FrameAuth : Nat := 0x01

/-- Frame type OpenStream (constants.go). -/
def FrameOpenStream : Nat := 0x02

/-- Frame type Data (constants.go). -/
def FrameData : Nat := 0x03

/-- Frame type Close (constants.go). -/
def FrameClose : Nat := 0x04

/-- Frame type Heartbeat (constants.go). -/
def FrameHeartbeat : Nat := 0x05

/-- Header size: Magic(2) + Version(1) + Type(1) + Flags(1) + StreamID(4) = 9 bytes. -/
def HeaderSize : Nat := 9

/-- Maximum whole-frame size, 16 MiB (constants.go). -/
def MaxFrameSize : Nat := 16 * 1024 * 1024

/-- Stream ID reserved for control frames (constants.go). -/
def StreamIDControl : Nat := 0

/-- Flag constant: no flag set (constants.go). -/
def FlagNone : Nat := 0

/-- Flag bit 0: end of stream (constants.go). -/
def FlagEndStream : Nat := 1

/-- Flag bit 1: acknowledgment (constants.go). -/
def FlagAck : Nat := 2

/-- Flag bit 2: error (constants.go). -/
def FlagError : Nat := 4

/-- Error code 1001, invalid protocol version (errors.go). -/
def ErrCodeInvalidVersion : Nat := 1001

/-- Error code 1002, frame too large (errors.go). -/
def ErrCodeFrameTooLarge : Nat := 1002

/-- Error code 1003, malformed frame (errors.go). -/
def ErrCodeBadFrame : Nat := 1003

/-- ProtocolError, the single error type the codec returns (errors.go). -/
structure ProtocolError where
  Code : Nat
  Msg : String
deriving DecidableEq

/-- Errors `Decode` can surface: either the byte source's own end-of-input
signal (`io.EOF` / `io.ErrUnexpectedEOF` in Go, which the code passes through
unwrapped) or a `ProtocolError` built by the codec. -/
inductive DecodeError where
  | eof : DecodeError
  | protocol : ProtocolError → DecodeError
deriving DecidableEq

/-- A frame (frame.go): version, type, flags are single bytes, StreamID is a
32-bit value, Payload is a raw byte sequence. -/
structure Frame where
  version : Nat
  type : Nat
  flags : Nat
  streamID : Nat
  payload : List Nat
deriving DecidableEq

/-- Big-endian serialization of a 32-bit value, as written by
`binary.Write(w, binary.BigEndian, x)` for a `uint32`. -/
def be32 (n : Nat) : List Nat :=
  [n / 2 ^ 24 % 256, n / 2 ^ 16 % 256, n / 2 ^ 8 % 256, n % 256]

/-- Big-endian reading of bytes into a number, as done by
`binary.BigEndian.Uint32` and `binary.Read` on a `uint32`. -/
def beToNat (bs : List Nat) : Nat :=
  bs.foldl (fun acc b => acc * 256 + b) 0

/-- Read exactly `n` bytes from the source; if fewer are available the source
reports its own end-of-input condition (`io.ReadFull` semantics, also used by
`binary.Read`).  Returns the bytes read and the rest of the source. -/
def readBytes (n : Nat) (input : List Nat) : Except DecodeError (List Nat × List Nat) :=
  if n ≤ input.length then Except.ok (input.take n, input.drop n) else Except.error DecodeError.eof

/-- IsValidFrameType (frame.go): the type byte must be one of the five
enumerated frame types. -/
def IsValidFrameType (frameType : Nat) : Bool :=
  frameType == FrameAuth || frameType == FrameOpenStream || frameType == FrameData ||
    frameType == FrameClose || frameType == FrameHeartbeat

/-- Encode (frame.go).  Checks the version, computes
`length = uint32(HeaderSize + len(payload))` (Go's conversion truncates mod
`2 ^ 32`), checks it against `MaxFrameSize`, then writes: 4-byte big-endian
length, the 2 magic bytes, version, type, flags, 4-byte big-endian StreamID,
then the payload.  An error is returned before anything is written, so on
error the sink receives no bytes; on success the result is the full byte
sequence written to the sink. -/
def Encode (f : Frame) : Except ProtocolError (List Nat) :=
  if f.version ≠ Version then
    Except.error ⟨ErrCodeInvalidVersion, "invalid protocol version"⟩
  else
    let length := (HeaderSize + f.payload.length) % 2 ^ 32
    if length > MaxFrameSize then
      Except.error ⟨ErrCodeFrameTooLarge, "frame too large"⟩
    else
      Except.ok (be32 length ++ [Magic0, Magic1] ++ [f.version, f.type, f.flags] ++
        be32 f.streamID ++ f.payload)

/-- Decode (frame.go).  Reads the 4-byte big-endian length, validates
`HeaderSize ≤ length ≤ MaxFrameSize` (one combined check returning
`ErrCodeBadFrame`), reads exactly `length` further bytes, then validates the
magic marker, the version and the frame type in that order, and finally
assembles the frame from the buffer: version `buf[2]`, type `buf[3]`, flags
`buf[4]`, StreamID big-endian from `buf[5:9]`, payload `buf[HeaderSize:]`. -/
def Decode (input : List Nat) : Except DecodeError Frame :=
  match readBytes 4 input with
  | Except.error e => Except.error e
  | Except.ok (lenBytes, rest) =>
    let length := beToNat lenBytes
    if length < HeaderSize ∨ length > MaxFrameSize then
      Except.error (DecodeError.protocol ⟨ErrCodeBadFrame, "invalid frame size"⟩)
    else
      match readBytes length rest with
      | Except.error e => Except.error e
      | Except.ok (buf, _) =>
        if buf.getD 0 0 ≠ Magic0 ∨ buf.getD 1 0 ≠ Magic1 then
          Except.error (DecodeError.protocol ⟨ErrCodeBadFrame, "invalid magic marker"⟩)
        else if buf.getD 2 0 ≠ Version then
          Except.error (DecodeError.protocol ⟨ErrCodeInvalidVersion, "invalid protocol version"⟩)
        else if ¬ IsValidFrameType (buf.getD 3 0) then
          Except.error (DecodeError.protocol ⟨ErrCodeBadFrame, "invalid frame type"⟩)
        else
          Except.ok
            { version := buf.getD 2 0, type := buf.getD 3 0, flags := buf.getD 4 0,
              streamID := beToNat ((buf.drop 5).take 4), payload := buf.drop HeaderSize }

/-- IsControlFrame (frame.go): StreamID equals the control sentinel 0. -/
def Frame.IsControlFrame (f : Frame) : Bool :=
  f.streamID == StreamIDControl

/-- IsDataStream (frame.go): StreamID is greater than the control sentinel 0. -/
def Frame.IsDataStream (f : Frame) : Bool :=
  decide (f.streamID > StreamIDControl)

/-- HasFlag (frame.go): bitwise AND of the flags byte with the given flag is
nonzero. -/
def Frame.HasFlag (f : Frame) (flag : Nat) : Bool :=
  (f.flags &&& flag) != 0

/-- IsEndStream (frame.go). -/
def Frame.IsEndStream (f : Frame) : Bool :=
  f.HasFlag FlagEndStream

/-- IsError (frame.go). -/
def Frame.IsError (f : Frame) : Bool :=
  f.HasFlag FlagError

/-- IsAck (frame.go). -/
def Frame.IsAck (f : Frame) : Bool :=
  f.HasFlag FlagAck

end V1

deriving instance DecidableEq for Except

namespace V1

/-- The serialized form of a 32-bit value is 4 bytes long. -/
theorem be32_length (n : Nat) : (be32 n).length = 4 := rfl

/-- Reading back the big-endian serialization of a 32-bit value returns the
value. -/
theorem beToNat_be32 (n : Nat) (h : n < 2 ^ 32) : beToNat (be32 n) = n := by
  simp only [be32, beToNat, List.foldl]
  omega

/-- C9: for every frame, IsControlFrame holds exactly when the stream ID is
0, IsDataStream holds exactly when the stream ID is greater than 0, and the
two predicates are complementary.  Both are pure functions of the frame in
this embedding, so they neither fail nor mutate it. -/
theorem isControlFrame_isDataStream_complementary (f : Frame) :
    (f.IsControlFrame = true ↔ f.streamID = 0) ∧
    (f.IsDataStream = true ↔ f.streamID > 0) ∧
    f.IsDataStream = !f.IsControlFrame := by
  refine ⟨by simp [Frame.IsControlFrame, StreamIDControl],
    by simp [Frame.IsDataStream, StreamIDControl], ?_⟩
  rcases Nat.eq_zero_or_pos f.streamID with h | h
  · simp [Frame.IsControlFrame, Frame.IsDataStream, StreamIDControl, h]
  · simp [Frame.IsControlFrame, Frame.IsDataStream, StreamIDControl, h, Nat.pos_iff_ne_zero.mp h]

/-- C10: HasFlag with argument FlagNone (0) is false for every frame, since
the bitwise AND with 0 is always 0 — in particular also for a frame whose
flags byte is exactly 0, so HasFlag cannot test that no flags are set. -/
theorem hasFlag_flagNone_false (f : Frame) : f.HasFlag FlagNone = false := by
  simp [Frame.HasFlag, FlagNone]

/-- C4: Encode rejects any frame whose version differs from the supported
version 1 with error code InvalidVersion, regardless of the other fields;
the error is returned before anything is written, so the sink receives no
bytes (the model returns no byte list on error). -/
theorem encode_rejects_invalid_version (f : Frame) (h : f.version ≠ Version) :
    Encode f = Except.error ⟨ErrCodeInvalidVersion, "invalid protocol version"⟩ := by
  simp [Encode, h]

/-- Witness for C4 at a concrete frame with version 2. -/
theorem encode_rejects_invalid_version_witness :
    Encode ⟨2, 3, 0, 1, [5]⟩ =
      Except.error ⟨ErrCodeInvalidVersion, "invalid protocol version"⟩ :=
  encode_rejects_invalid_version ⟨2, 3, 0, 1, [5]⟩ (by decide)

/-- Counterexample to C2: on the input [1, 0, 0, 1], whose declared length
16777217 exceeds MaxFrameSize = 16777216, Decode fails with code
ErrCodeBadFrame (1003), not with ErrCodeFrameTooLarge (1002) as the claim
states: the source uses one combined size check returning BadFrame. -/
theorem decode_oversize_uses_badFrame :
    beToNat [1, 0, 0, 1] > MaxFrameSize ∧
    Decode [1, 0, 0, 1] =
      Except.error (DecodeError.protocol ⟨ErrCodeBadFrame, "invalid frame size"⟩) ∧
    ErrCodeBadFrame ≠ ErrCodeFrameTooLarge :=
  ⟨by decide, by decide, by decide⟩

/-- C2 amended: when the declared 4-byte big-endian length is below
HeaderSize (9) or above MaxFrameSize, Decode fails with the single framing
error code ErrCodeBadFrame ("invalid frame size") in both cases, before
reading the frame body, and no Frame is returned. -/
theorem decode_size_check_badFrame (b0 b1 b2 b3 : Nat) (rest : List Nat)
    (h : beToNat [b0, b1, b2, b3] < HeaderSize ∨ beToNat [b0, b1, b2, b3] > MaxFrameSize) :
    Decode (b0 :: b1 :: b2 :: b3 :: rest) =
      Except.error (DecodeError.protocol ⟨ErrCodeBadFrame, "invalid frame size"⟩) := by
  have h4 : 4 ≤ (b0 :: b1 :: b2 :: b3 :: rest).length := by simp
  simp only [Decode, readBytes, if_pos h4, List.take, List.drop]
  rw [if_pos h]

/-- Witness for C2's amended theorem at declared length 5 < HeaderSize. -/
theorem decode_size_check_badFrame_witness :
    Decode [0, 0, 0, 5] =
      Except.error (DecodeError.protocol ⟨ErrCodeBadFrame, "invalid frame size"⟩) :=
  decode_size_check_badFrame 0 0 0 5 [] (by decide)

/-- Counterexample to C8: the input [0, 0, 0, 1] is shorter than 4 bytes plus
its declared length 1, yet Decode fails with the ProtocolError BadFrame
("invalid frame size"), not with an end-of-input condition, because the
declared length is checked against HeaderSize before the body is read. -/
theorem decode_truncated_badLength_protocolError :
    List.length [0, 0, 0, 1] < 4 + beToNat (List.take 4 [0, 0, 0, 1]) ∧
    Decode [0, 0, 0, 1] =
      Except.error (DecodeError.protocol ⟨ErrCodeBadFrame, "invalid frame size"⟩) :=
  ⟨by decide, by decide⟩

/-- C8 amended: truncated inputs fail with the source's own end-of-input
signal, not a ProtocolError, provided the declared length itself passes the
size check: if the input has fewer than 4 bytes (the length field itself is
truncated), or its declared length is in [HeaderSize, MaxFrameSize] and the
input is shorter than 4 bytes plus that length (body truncated at any
point), Decode fails with eof. -/
theorem decode_truncated_eof (input : List Nat)
    (h : input.length < 4 ∨
      (HeaderSize ≤ beToNat (input.take 4) ∧ beToNat (input.take 4) ≤ MaxFrameSize ∧
        input.length < 4 + beToNat (input.take 4))) :
    Decode input = Except.error DecodeError.eof := by
  by_cases h4 : 4 ≤ input.length
  · rcases h with h | ⟨h1, h2, h3⟩
    · omega
    · have hcond : ¬ (beToNat (input.take 4) < HeaderSize ∨
          beToNat (input.take 4) > MaxFrameSize) := by omega
      have h5 : ¬ (beToNat (input.take 4) ≤ (input.drop 4).length) := by
        simp only [List.length_drop]
        omega
      simp only [Decode, readBytes, if_pos h4, if_neg hcond, if_neg h5]
  · simp only [Decode, readBytes, if_neg h4]

/-- Witness for C8's amended theorem: declared length 12, only 1 body byte. -/
theorem decode_truncated_eof_witness :
    Decode [0, 0, 0, 12, 82] = Except.error DecodeError.eof :=
  decode_truncated_eof [0, 0, 0, 12, 82] (by decide)

/-- A payload of 2 ^ 32 - 9 zero bytes: together with the 9-byte header the
true frame size is 9 + (2 ^ 32 - 9) = 2 ^ 32 bytes, far above MaxFrameSize,
but Go's `uint32(HeaderSize + len(f.Payload))` truncates that to 0. -/
def overflowPayload : List Nat := List.replicate (2 ^ 32 - HeaderSize) 0

/-- Length of the overflowing payload. -/
theorem overflowPayload_length : overflowPayload.length = 2 ^ 32 - HeaderSize :=
  List.length_replicate _ _

/-- Any version-1 frame whose payload has exactly 2^32 - 9 bytes is accepted
by Encode, with a length field of 0, because the truncated length
(9 + (2^32 - 9)) mod 2^32 = 0 passes the size check. -/
theorem encode_wrap_general (p : List Nat) (hp : p.length = 2 ^ 32 - HeaderSize) :
    Encode ⟨1, FrameData, 0, 1, p⟩ =
      Except.ok (be32 0 ++ [Magic0, Magic1] ++ [1, FrameData, 0] ++ be32 1 ++ p) := by
  unfold Encode
  rw [if_neg (by norm_num [Version])]
  simp only [hp]
  rw [if_neg (by norm_num [HeaderSize, MaxFrameSize])]
  norm_num [HeaderSize]

/-- C3 fails on the code: a version-1 frame whose payload has 2^32 - 9 bytes
has header + payload = 2^32 > MaxFrameSize, yet Encode succeeds and writes
bytes, because Go's `uint32(HeaderSize + len(f.Payload))` truncates the
length to (2^32) mod 2^32 = 0, which passes the size check. -/
theorem encode_overflow_accepts_oversized :
    HeaderSize + overflowPayload.length > MaxFrameSize ∧
    Encode ⟨1, FrameData, 0, 1, overflowPayload⟩ =
      Except.ok (be32 0 ++ [Magic0, Magic1] ++ [1, FrameData, 0] ++ be32 1 ++
        overflowPayload) := by
  refine ⟨?_, encode_wrap_general overflowPayload overflowPayload_length⟩
  rw [overflowPayload_length]
  norm_num [HeaderSize, MaxFrameSize]

/-- Any version-1 frame whose payload has exactly 2^32 - 9 bytes is encoded
with a 4-byte length field holding 0, which does not read back as
9 + len(payload). -/
theorem encode_wrap_take4 (p : List Nat) (hp : p.length = 2 ^ 32 - HeaderSize) :
    ∃ bs, Encode ⟨1, FrameData, 0, 1, p⟩ = Except.ok bs ∧ bs.take 4 = [0, 0, 0, 0] ∧
      beToNat (bs.take 4) ≠ HeaderSize + p.length := by
  have htake : (be32 0 ++ [Magic0, Magic1] ++ [1, FrameData, 0] ++ be32 1 ++ p).take 4
      = [0, 0, 0, 0] := by
    simp only [List.append_assoc]
    rw [List.take_left' (be32_length 0)]
    norm_num [be32]
  refine ⟨_, ?_, htake, ?_⟩
  · unfold Encode
    rw [if_neg (by norm_num [Version])]
    simp only [hp]
    rw [if_neg (by norm_num [HeaderSize, MaxFrameSize])]
    norm_num [HeaderSize]
  · rw [htake, hp]
    norm_num [beToNat, List.foldl, HeaderSize]

/-- C5 fails on the code at the same input: the 4-byte length field Encode
writes for a version-1 frame with a 2^32 - 9 byte payload is the big-endian
encoding of 0, not of 9 + len(payload) = 2^32, because of the uint32
truncation. -/
theorem encode_overflow_wrong_length_field :
    ∃ bs, Encode ⟨1, FrameData, 0, 1, overflowPayload⟩ = Except.ok bs ∧
      bs.take 4 = [0, 0, 0, 0] ∧
      beToNat (bs.take 4) ≠ HeaderSize + overflowPayload.length :=
  encode_wrap_take4 overflowPayload overflowPayload_length

/-- Decoding a well-formed wire prefix — a 4-byte big-endian length L within
bounds followed by exactly L body bytes — reduces Decode to the source's
validation chain over the body buffer (magic, then version, then type, then
field extraction). -/
theorem Decode_wire_body (L : Nat) (body : List Nat)
    (hL1 : HeaderSize ≤ L) (hL2 : L ≤ MaxFrameSize) (hbody : body.length = L) :
    Decode (be32 L ++ body) =
      if body.getD 0 0 ≠ Magic0 ∨ body.getD 1 0 ≠ Magic1 then
        Except.error (DecodeError.protocol ⟨ErrCodeBadFrame, "invalid magic marker"⟩)
      else if body.getD 2 0 ≠ Version then
        Except.error (DecodeError.protocol ⟨ErrCodeInvalidVersion, "invalid protocol version"⟩)
      else if ¬ IsValidFrameType (body.getD 3 0) then
        Except.error (DecodeError.protocol ⟨ErrCodeBadFrame, "invalid frame type"⟩)
      else
        Except.ok
          { version := body.getD 2 0, type := body.getD 3 0, flags := body.getD 4 0,
            streamID := beToNat ((body.drop 5).take 4), payload := body.drop HeaderSize } := by
  have hM : MaxFrameSize = 16777216 := rfl
  have hH : HeaderSize = 9 := rfl
  have hL32 : L < 2 ^ 32 := by omega
  have h4 : 4 ≤ (be32 L ++ body).length := by
    simp [be32]
  have htake : (be32 L ++ body).take 4 = be32 L := List.take_left' (be32_length L)
  have hdrop : (be32 L ++ body).drop 4 = body := List.drop_left' (be32_length L)
  have hcond : ¬ (L < HeaderSize ∨ L > MaxFrameSize) := by omega
  have hread : L ≤ body.length := by omega
  have htake2 : body.take L = body := by
    rw [← hbody]
    exact List.take_length body
  simp only [Decode, readBytes, if_pos h4, htake, hdrop, beToNat_be32 L hL32, if_neg hcond,
    if_pos hread, htake2]

/-- C1: for every valid frame — supported version, one of the five frame
types, any flags, 32-bit stream ID, payload length at most
MaxFrameSize - HeaderSize (zero-length and maximum-length included) — Encode
succeeds and Decode on the encoded bytes returns the frame field-for-field. -/
theorem decode_encode_roundtrip (f : Frame) (hv : f.version = Version)
    (ht : IsValidFrameType f.type = true) (hsid : f.streamID < 2 ^ 32)
    (hp : f.payload.length ≤ MaxFrameSize - HeaderSize) :
    ∃ bs, Encode f = Except.ok bs ∧ Decode bs = Except.ok f := by
  have hM : MaxFrameSize = 16777216 := rfl
  have hH : HeaderSize = 9 := rfl
  have hlen : HeaderSize + f.payload.length ≤ MaxFrameSize := by omega
  have hmod : (HeaderSize + f.payload.length) % 2 ^ 32 = HeaderSize + f.payload.length :=
    Nat.mod_eq_of_lt (by omega)
  have henc : Encode f = Except.ok (be32 (HeaderSize + f.payload.length) ++ [Magic0, Magic1] ++
      [f.version, f.type, f.flags] ++ be32 f.streamID ++ f.payload) := by
    unfold Encode
    rw [if_neg (by simp [hv])]
    simp only [hmod]
    rw [if_neg (by omega)]
  refine ⟨_, henc, ?_⟩
  have hassoc : be32 (HeaderSize + f.payload.length) ++ [Magic0, Magic1] ++
      [f.version, f.type, f.flags] ++ be32 f.streamID ++ f.payload =
      be32 (HeaderSize + f.payload.length) ++ ([Magic0, Magic1] ++
        ([f.version, f.type, f.flags] ++ (be32 f.streamID ++ f.payload))) := by
    simp [List.append_assoc]
  rw [hassoc]
  have hbody : ([Magic0, Magic1] ++ ([f.version, f.type, f.flags] ++
      (be32 f.streamID ++ f.payload))).length = HeaderSize + f.payload.length := by
    simp [be32, hH]
    omega
  rw [Decode_wire_body _ _ (by omega) hlen hbody]
  simp only [List.cons_append, List.nil_append, List.getD_cons_zero, List.getD_cons_succ,
    List.drop_succ_cons, List.drop_zero, hH]
  rw [if_neg (by simp), if_neg (by simp [hv]), if_neg (by simp [ht])]
  rw [List.take_left' (be32_length f.streamID), List.drop_left' (be32_length f.streamID),
    beToNat_be32 f.streamID hsid]

/-- Witness for C1 at the concrete frame (1, Data, flags 3, stream 7,
payload [82, 101, 115]). -/
theorem decode_encode_roundtrip_witness :
    ∃ bs, Encode ⟨1, FrameData, 3, 7, [82, 101, 115]⟩ = Except.ok bs ∧
      Decode bs = Except.ok ⟨1, FrameData, 3, 7, [82, 101, 115]⟩ :=
  decode_encode_roundtrip ⟨1, FrameData, 3, 7, [82, 101, 115]⟩ rfl (by decide) (by decide)
    (by decide)

/-- C7: for every byte input with a well-formed length field, magic marker
and version whose type byte is not one of the five enumerated frame types,
Decode fails with code BadFrame ("invalid frame type"). -/
theorem decode_rejects_unknown_type (t fl sid : Nat) (p : List Nat)
    (hp : p.length ≤ MaxFrameSize - HeaderSize) (ht : IsValidFrameType t = false) :
    Decode (be32 (HeaderSize + p.length) ++ [Magic0, Magic1] ++ [Version, t, fl] ++
      be32 sid ++ p) =
      Except.error (DecodeError.protocol ⟨ErrCodeBadFrame, "invalid frame type"⟩) := by
  have hM : MaxFrameSize = 16777216 := rfl
  have hH : HeaderSize = 9 := rfl
  have hassoc : be32 (HeaderSize + p.length) ++ [Magic0, Magic1] ++ [Version, t, fl] ++
      be32 sid ++ p =
      be32 (HeaderSize + p.length) ++ ([Magic0, Magic1] ++ ([Version, t, fl] ++
        (be32 sid ++ p))) := by
    simp [List.append_assoc]
  have hbody : ([Magic0, Magic1] ++ ([Version, t, fl] ++ (be32 sid ++ p))).length
      = HeaderSize + p.length := by
    simp [be32, hH]
    omega
  rw [hassoc, Decode_wire_body _ _ (by omega) (by omega) hbody]
  simp only [List.cons_append, List.nil_append, List.getD_cons_zero, List.getD_cons_succ]
  rw [if_neg (by simp), if_neg (by simp), if_pos (by simp [ht])]

/-- Witness for C7: type byte 6 with empty payload. -/
theorem decode_rejects_unknown_type_witness :
    Decode (be32 (HeaderSize + List.length ([] : List Nat)) ++ [Magic0, Magic1] ++
      [Version, 6, 0] ++ be32 1 ++ []) =
      Except.error (DecodeError.protocol ⟨ErrCodeBadFrame, "invalid frame type"⟩) :=
  decode_rejects_unknown_type 6 0 1 [] (by decide) (by decide)

/-- C6: replacing byte 4 of a successfully encoded valid frame with a value
other than Magic0, or byte 5 with a value other than Magic1, makes Decode
fail with BadFrame ("invalid magic marker"); the magic check fires even
though the version, type, flags and stream ID bytes are intact, because it
precedes every other field check. -/
theorem decode_rejects_corrupted_magic (f : Frame)
    (hp : f.payload.length ≤ MaxFrameSize - HeaderSize)
    (bs : List Nat) (he : Encode f = Except.ok bs) (i b : Nat)
    (hi : (i = 4 ∧ b ≠ Magic0) ∨ (i = 5 ∧ b ≠ Magic1)) :
    Decode (bs.set i b) =
      Except.error (DecodeError.protocol ⟨ErrCodeBadFrame, "invalid magic marker"⟩) := by
  have hM : MaxFrameSize = 16777216 := rfl
  have hH : HeaderSize = 9 := rfl
  by_cases hv : f.version ≠ Version
  · simp [Encode, hv] at he
  · push_neg at hv
    have hmod : (HeaderSize + f.payload.length) % 2 ^ 32 = HeaderSize + f.payload.length :=
      Nat.mod_eq_of_lt (by omega)
    have henc : Encode f = Except.ok (be32 (HeaderSize + f.payload.length) ++
        [Magic0, Magic1] ++ [f.version, f.type, f.flags] ++ be32 f.streamID ++ f.payload) := by
      unfold Encode
      rw [if_neg (by simp [hv])]
      simp only [hmod]
      rw [if_neg (by omega)]
    rw [henc] at he
    simp only [Except.ok.injEq] at he
    subst he
    rcases hi with ⟨hi4, hb⟩ | ⟨hi5, hb⟩
    · subst hi4
      have hset : (be32 (HeaderSize + f.payload.length) ++ [Magic0, Magic1] ++
          [f.version, f.type, f.flags] ++ be32 f.streamID ++ f.payload).set 4 b =
          be32 (HeaderSize + f.payload.length) ++ ([b, Magic1] ++
            ([f.version, f.type, f.flags] ++ (be32 f.streamID ++ f.payload))) := by
        simp [be32]
      have hbody : ([b, Magic1] ++ ([f.version, f.type, f.flags] ++
          (be32 f.streamID ++ f.payload))).length = HeaderSize + f.payload.length := by
        simp [be32, hH]
        omega
      rw [hset, Decode_wire_body _ _ (by omega) (by omega) hbody]
      simp only [List.cons_append, List.nil_append, List.getD_cons_zero, List.getD_cons_succ]
      rw [if_pos (Or.inl hb)]
    · subst hi5
      have hset : (be32 (HeaderSize + f.payload.length) ++ [Magic0, Magic1] ++
          [f.version, f.type, f.flags] ++ be32 f.streamID ++ f.payload).set 5 b =
          be32 (HeaderSize + f.payload.length) ++ ([Magic0, b] ++
            ([f.version, f.type, f.flags] ++ (be32 f.streamID ++ f.payload))) := by
        simp [be32]
      have hbody : ([Magic0, b] ++ ([f.version, f.type, f.flags] ++
          (be32 f.streamID ++ f.payload))).length = HeaderSize + f.payload.length := by
        simp [be32, hH]
        omega
      rw [hset, Decode_wire_body _ _ (by omega) (by omega) hbody]
      simp only [List.cons_append, List.nil_append, List.getD_cons_zero, List.getD_cons_succ]
      rw [if_pos (Or.inr hb)]

/-- Witness for C6: the encoded Auth frame with empty payload, byte 4
overwritten with 255. -/
theorem decode_rejects_corrupted_magic_witness :
    Decode (([0, 0, 0, 9, 82, 84, 1, 1, 0, 0, 0, 0, 0] : List Nat).set 4 255) =
      Except.error (DecodeError.protocol ⟨ErrCodeBadFrame, "invalid magic marker"⟩) :=
  decode_rejects_corrupted_magic ⟨1, 1, 0, 0, []⟩ (by decide)
    [0, 0, 0, 9, 82, 84, 1, 1, 0, 0, 0, 0, 0] (by decide) 4 255 (by decide)

end V1
